import Mathlib

/-!
Verification development for the Dentweb/WebCeph automation engine.

Shallow embedding of the core logic of the repository:
 * AirtableSync offline durable queue (src/src/automation/airtable_sync.py)
 * the fallback-list target locator (src/src/automation/web_ceph_automation.py)
 * the Dentweb window acquirer (src/src/automation/dentweb_automation.py)
 * the pipeline stage runner of the UI flow (src/src/ui/automation_flow.py)
 * the OCR patient-info parsing shape (src/src/automation/dentweb_automation.py)

Remote HTTP calls, Selenium element lookups and the OS window enumeration are
external effects; they enter the model as explicit outcome values or oracle
functions, while every piece of control flow of the Python source is
translated directly.
-/

namespace WebCephAuto

/-- Whether the second character list starts the first. -/
def charsStartWith : List Char → List Char → Bool
  | _, [] => true
  | [], _ :: _ => false
  | c :: cs, d :: ds => c = d && charsStartWith cs ds

/-- Whether the second character list occurs inside the first. -/
def listHasSub : List Char → List Char → Bool
  | [], sub => sub.isEmpty
  | c :: rest, sub => charsStartWith (c :: rest) sub || listHasSub rest sub

/-- True when sub occurs as a substring of s (Python "sub in s"). -/
def strContains (s sub : String) : Bool :=
  listHasSub s.toList sub.toList

/-- ASCII lowercasing of a string (Python str.lower; the Korean characters
appearing in the sources are untouched by both). -/
def lowerString (s : String) : String :=
  String.mk (s.toList.map Char.toLower)

/-- Python text.split(sep-character). -/
def splitOnChar (c : Char) : List Char → List (List Char)
  | [] => [[]]
  | d :: ds =>
      let rest := splitOnChar c ds
      if d = c then [] :: rest
      else
        match rest with
        | [] => [[d]]
        | r :: rs => (d :: r) :: rs

/-- The whitespace characters Python str.strip removes in the OCR texts. -/
def isSpaceChar (c : Char) : Bool :=
  c = ' ' || c = '\t' || c = '\n' || c = '\r'

/-- Python str.strip. -/
def pyStrip (s : String) : String :=
  String.mk
    (((s.toList.dropWhile isSpaceChar).reverse.dropWhile isSpaceChar).reverse)

/-- Python text.split(newline). -/
def pySplitLines (s : String) : List String :=
  (splitOnChar (Char.ofNat 10) s.toList).map String.mk

/-! ## AirtableSync: offline durable queue (airtable_sync.py) -/

/-- The opaque JSON payload persisted with a queue item.  The source stores
either the create-patient body (a fields document, airtable_sync.py line 143)
or a record-id plus update body (lines 232-235). -/
inductive Payload where
  | fields (doc : String)
  | record (record_id : String) (doc : String)
deriving Repr, DecidableEq

/-- One persisted offline-queue item, as written by
AirtableSync._add_to_offline_queue (airtable_sync.py lines 346-352).
last_error is absent until a replay failure sets it (line 442). -/
structure QueueItem where
  id : String
  action_type : String
  data : Payload
  timestamp : String
  retry_count : Nat
  last_error : Option String := none
deriving Repr, DecidableEq

/-- Outcome of one remote Airtable HTTP call: a returned status code, or a
raised exception (timeout, connection error, ...). -/
inductive HttpOutcome where
  | status (code : Nat)
  | exn (msg : String)
deriving Repr, DecidableEq

/-- Result dictionary returned by the sync entry points: a success flag and a
human-readable message. -/
structure SyncResult where
  success : Bool
  message : String
deriving Repr, DecidableEq

/-- AirtableSync._add_to_offline_queue (lines 343-367): builds a fresh item
with retry_count 0 and appends it to the durable store. -/
def addToOfflineQueue (queue : List QueueItem) (action_type : String)
    (data : Payload) (now : String) : List QueueItem :=
  queue ++ [{ id := action_type ++ "_" ++ now
              action_type := action_type
              data := data
              timestamp := now
              retry_count := 0 }]

/-- AirtableSync.create_patient_record (lines 132-197).  mapped is the result
of _map_patient_data (an .error models that mapping raised, in which case the
except-branch retry of the mapping raises again and the inner bare except
swallows it: nothing is enqueued, lines 187-192).  remote is the outcome of
session.post.  Returns the result dictionary and the new queue store; the
function catches every exception, so it always returns instead of raising. -/
def create_patient_record (queue : List QueueItem)
    (mapped : Except String String) (remote : HttpOutcome) (now : String) :
    SyncResult × List QueueItem :=
  match mapped with
  | .error e =>
      (⟨false, "레코드 생성 실패: " ++ e ++ " (오프라인 큐에 저장됨)"⟩, queue)
  | .ok doc =>
      match remote with
      | .status c =>
          if c = 200 then
            (⟨true, "환자 정보가 성공적으로 저장되었습니다"⟩, queue)
          else
            (⟨false, "레코드 생성 실패: HTTP " ++ toString c ++ " (오프라인 큐에 저장됨)"⟩,
             addToOfflineQueue queue "create_patient" (.fields doc) now)
      | .exn e =>
          (⟨false, "레코드 생성 실패: " ++ e ++ " (오프라인 큐에 저장됨)"⟩,
           addToOfflineQueue queue "create_patient" (.fields doc) now)

/-- AirtableSync.update_analysis_result (lines 199-259), analogous to record
creation: on any non-200 status or raised exception the record-id plus update
payload is appended to the offline queue and a failure result is returned. -/
def update_analysis_result (queue : List QueueItem) (record_id : String)
    (mapped : Except String String) (remote : HttpOutcome) (now : String) :
    SyncResult × List QueueItem :=
  match mapped with
  | .error e =>
      (⟨false, "업데이트 실패: " ++ e ++ " (오프라인 큐에 저장됨)"⟩, queue)
  | .ok doc =>
      match remote with
      | .status c =>
          if c = 200 then
            (⟨true, "분석 결과가 성공적으로 업데이트되었습니다"⟩, queue)
          else
            (⟨false, "업데이트 실패: HTTP " ++ toString c ++ " (오프라인 큐에 저장됨)"⟩,
             addToOfflineQueue queue "update_result" (.record record_id doc) now)
      | .exn e =>
          (⟨false, "업데이트 실패: " ++ e ++ " (오프라인 큐에 저장됨)"⟩,
           addToOfflineQueue queue "update_result" (.record record_id doc) now)

/-- The error string recorded for a failed replay attempt: str(e) where e is
the raised exception, which for a non-200 status is Exception("HTTP code")
(airtable_sync.py lines 419 and 438). -/
def replayError : HttpOutcome → Option String
  | .status c => if c = 200 then none else some ("HTTP " ++ toString c)
  | .exn m => some m

/-- Fate of one queue item inside the replay loop of
process_offline_queue (lines 400-450). -/
inductive ItemOutcome where
  | processed
  | kept (item : QueueItem)
  | droppedFailed
  | skipped
deriving Repr, DecidableEq

/-- One iteration of the replay loop (lines 400-450).  call gives the outcome
of the re-issued HTTP request.  An action_type that is neither
create_patient nor update_result falls through the if/elif with no exception,
so the item is silently dropped without being counted (skipped).  An
update_result item whose payload lacks a record_id raises KeyError, which the
per-item except treats like any other failure. -/
def processQueueItem (call : QueueItem → HttpOutcome) (item : QueueItem) :
    ItemOutcome :=
  let attempt : Option (Option String) :=
    if item.action_type = "create_patient" then
      some (replayError (call item))
    else if item.action_type = "update_result" then
      match item.data with
      | .record _ _ => some (replayError (call item))
      | .fields _ => some (some "KeyError: record_id")
    else none
  match attempt with
  | none => .skipped
  | some none => .processed
  | some (some e) =>
      let item' := { item with retry_count := item.retry_count + 1,
                               last_error := some e }
      if item'.retry_count < 3 then .kept item' else .droppedFailed

/-- The replay report of process_offline_queue: processed and failed counters
plus the remaining queue, which is also the store content written back
(lines 453-454). -/
structure ReplayReport where
  processed : Nat
  failed : Nat
  remaining : List QueueItem
deriving Repr, DecidableEq

/-- How one replay iteration updates the counters and the kept queue
(lines 415-450): a processed item bumps the processed counter, a kept item is
appended to the remaining queue, an exhausted item bumps the failed counter,
and a fallen-through item changes nothing. -/
def replayStep (call : QueueItem → HttpOutcome) (r : ReplayReport)
    (item : QueueItem) : ReplayReport :=
  match processQueueItem call item with
  | .processed => { r with processed := r.processed + 1 }
  | .kept item' => { r with remaining := r.remaining ++ [item'] }
  | .droppedFailed => { r with failed := r.failed + 1 }
  | .skipped => r

/-- AirtableSync.process_offline_queue (lines 372-464) on a loaded snapshot:
fold the replay loop over the items in order, building the counters and the
rewritten store. -/
def process_offline_queue (call : QueueItem → HttpOutcome)
    (queue : List QueueItem) : ReplayReport :=
  queue.foldl (replayStep call) ⟨0, 0, []⟩

/-- The replay loop issues a remote call for an item exactly when its
action_type is one of the two handled types. -/
def handledB (item : QueueItem) : Bool :=
  item.action_type = "create_patient" || item.action_type = "update_result"

/-- A well-formed queue item as produced by the enqueue paths: its replay
iteration re-issues the HTTP request (handled action_type with the matching
payload shape). -/
def attemptableB (item : QueueItem) : Bool :=
  item.action_type = "create_patient"
    || (item.action_type = "update_result"
        && (match item.data with | .record _ _ => true | .fields _ => false))

/-- The error text a failing replay attempt records for an item (empty for a
successful attempt, where it is never used). -/
def replayErrOf (call : QueueItem → HttpOutcome) (item : QueueItem) : String :=
  (replayError (call item)).getD ""

/-! ## Target locator (web_ceph_automation.py) -/

/-- One locating strategy: a Selenium By kind plus a selector string, one
entry of the ordered pattern lists. -/
structure Strategy where
  by_kind : String
  selector : String
deriving Repr, DecidableEq

/-- A located page element with the two interactability attributes the login
button loop checks. -/
structure Element where
  enabled : Bool
  displayed : Bool
deriving Repr, DecidableEq

/-- The shared loop shape of the field finders (for by, selector in patterns:
try locate, return on success, continue on exception; web_ceph_automation.py
lines 364-374): the first strategy the page resolves wins, a page that
resolves no strategy yields none. -/
def findFirstMatch (page : Strategy → Option Element) :
    List Strategy → Option Element
  | [] => none
  | s :: rest =>
      match page s with
      | some e => some e
      | none => findFirstMatch page rest

/-- The email-field pattern list of _find_email_field
(web_ceph_automation.py lines 337-362), in source order. -/
def email_patterns : List Strategy :=
  [⟨"id", "id_email"⟩,
   ⟨"css", "input#id_email.textinput.form-control"⟩,
   ⟨"css", "#id_email"⟩,
   ⟨"css", "input.textinput.form-control"⟩,
   ⟨"xpath", "//input[preceding-sibling::*[contains(text(), '이메일')]]"⟩,
   ⟨"xpath", "//label[contains(text(), '이메일')]/following-sibling::input"⟩,
   ⟨"xpath", "//label[contains(text(), '이메일')]/parent::*/input"⟩,
   ⟨"css", "input[type='email']"⟩,
   ⟨"css", "input[placeholder*='이메일']"⟩,
   ⟨"css", "input[placeholder*='email']"⟩,
   ⟨"css", "input[placeholder*='Email']"⟩,
   ⟨"name", "email"⟩,
   ⟨"name", "username"⟩,
   ⟨"name", "user_email"⟩,
   ⟨"id", "email"⟩,
   ⟨"id", "username"⟩,
   ⟨"id", "user_email"⟩,
   ⟨"css", "input[type='text']:first-of-type"⟩,
   ⟨"css", "input:not([type]):first-of-type"⟩]

/-- The password-field pattern list of _find_password_field (lines 378-400). -/
def password_patterns : List Strategy :=
  [⟨"id", "id_password"⟩,
   ⟨"css", "input#id_password.passwordinput.form-control"⟩,
   ⟨"css", "#id_password"⟩,
   ⟨"css", "input.passwordinput.form-control"⟩,
   ⟨"xpath", "//input[preceding-sibling::*[contains(text(), '비밀번호')]]"⟩,
   ⟨"xpath", "//label[contains(text(), '비밀번호')]/following-sibling::input"⟩,
   ⟨"xpath", "//label[contains(text(), '비밀번호')]/parent::*/input"⟩,
   ⟨"css", "input[type='password']"⟩,
   ⟨"css", "input[placeholder*='비밀번호']"⟩,
   ⟨"css", "input[placeholder*='password']"⟩,
   ⟨"css", "input[placeholder*='Password']"⟩,
   ⟨"name", "password"⟩,
   ⟨"name", "passwd"⟩,
   ⟨"name", "user_password"⟩,
   ⟨"id", "password"⟩,
   ⟨"id", "passwd"⟩,
   ⟨"id", "user_password"⟩]

/-- WebCephAutomation._find_email_field (lines 335-374): walk the email
pattern list, return the first located field, none when every pattern fails. -/
def find_email_field (page : Strategy → Option Element) : Option Element :=
  findFirstMatch page email_patterns

/-- WebCephAutomation._find_password_field (lines 376-410). -/
def find_password_field (page : Strategy → Option Element) : Option Element :=
  findFirstMatch page password_patterns

/-- WebCephAutomation._input_credentials (lines 308-333): a missing email or
password field raises a generic exception whose message names only the field,
never the attempted strategies. -/
def input_credentials (pageE pageP : Strategy → Option Element) :
    Except String Unit :=
  match find_email_field pageE with
  | none => .error "이메일 입력 필드를 찾을 수 없습니다"
  | some _ =>
      match find_password_field pageP with
      | none => .error "비밀번호 입력 필드를 찾을 수 없습니다"
      | some _ => .ok ()

/-- Whether an error message lists every attempted strategy (the selector of
each strategy occurs in the message text). -/
def errorEnumeratesStrategies (msg : String) (L : List Strategy) : Bool :=
  L.all (fun s => strContains msg s.selector)

/-- Interactability check of the login-button loop (line 446): the element is
enabled and displayed. -/
def interactable (b : Element) : Bool :=
  b.enabled && b.displayed

/-- The login-button pattern list of _click_login_button (lines 415-441). -/
def login_button_patterns : List Strategy :=
  [⟨"css", "input.btn.btn-home-color.btn-block"⟩,
   ⟨"css", "input[name='로그인']"⟩,
   ⟨"xpath", "//input[@name='로그인']"⟩,
   ⟨"css", "input.btn-home-color"⟩,
   ⟨"css", "input.btn-block"⟩,
   ⟨"xpath", "//button[contains(text(), '로그인')]"⟩,
   ⟨"xpath", "//button[text()='로그인']"⟩,
   ⟨"xpath", "//input[@value='로그인']"⟩,
   ⟨"css", "button[type='submit']"⟩,
   ⟨"xpath", "//input[@type='submit']"⟩,
   ⟨"xpath", "//button[contains(text(), 'Login')]"⟩,
   ⟨"xpath", "//button[contains(text(), 'login')]"⟩,
   ⟨"xpath", "//button[text()='Login']"⟩,
   ⟨"xpath", "//input[@value='Login']"⟩,
   ⟨"css", ".login-button"⟩,
   ⟨"css", ".btn-login"⟩,
   ⟨"css", "#login-button"⟩,
   ⟨"css", "#loginButton"⟩,
   ⟨"css", "form button[type='submit']:first-of-type"⟩,
   ⟨"css", "form input[type='submit']:first-of-type"⟩]

/-- The strategy loop of WebCephAutomation._click_login_button
(lines 443-463): the first strategy whose element exists, is enabled and is
displayed gets clicked (both follow-up branches return True, lines 452-457);
a found but non-interactable element lets the loop continue; some b models
that b was clicked and True returned, none models the False exit. -/
def clickLoginButtonLoop (page : Strategy → Option Element) :
    List Strategy → Option Element
  | [] => none
  | s :: rest =>
      match page s with
      | some b =>
          if interactable b then some b else clickLoginButtonLoop page rest
      | none => clickLoginButtonLoop page rest

/-- WebCephAutomation._click_login_button over its concrete pattern list. -/
def click_login_button (page : Strategy → Option Element) : Option Element :=
  clickLoginButtonLoop page login_button_patterns

/-! ## Window acquirer (dentweb_automation.py, find_dentweb_window) -/

/-- One candidate window as recorded by the enumeration callback
(dentweb_automation.py lines 158-170): the tier flags computed from the
title, the foreground and visible-area state, and the on-screen area. -/
structure WindowInfo where
  title : String
  is_super_strong : Bool
  is_strong_match : Bool
  is_foreground : Bool
  is_visible_area : Bool
  area : Int
deriving Repr, DecidableEq

/-- Title classification for the SUPER_STRONG tier (lines 52-61): a strict
prefix together with both the Chart No. and the name marker. -/
def isSuperStrongTitle (t : String) : Bool :=
  (t.startsWith "▶ 덴트웹" && strContains t "Chart No." && strContains t "이름")
  || (t.startsWith "덴트웹 ::" && strContains t "Chart No." && strContains t "이름")

/-- Title classification for the STRONG tier (lines 63-65). -/
def isStrongTitle (t : String) : Bool :=
  t.startsWith "▶ 덴트웹" || t.startsWith "덴트웹 ::"

/-- The loose keyword list of the GENERAL tier (lines 68-72). -/
def generalPatterns : List String :=
  ["dentweb", "dentWeb", "DentWeb", "DENTWEB", "덴트웹", "덴트 웹",
   "치과관리", "치과 관리", "dental", "Dental", "DENTAL"]

/-- Title classification for the GENERAL tier (line 73): case-insensitive
containment of any loose keyword. -/
def isGeneralTitle (t : String) : Bool :=
  generalPatterns.any (fun p => strContains (lowerString t) (lowerString p))

/-- Python max(list, key=area) over a nonempty list: scan left to right and
replace the current best only on a strictly larger key, so the first maximal
element is kept. -/
def pyMaxArea (w : WindowInfo) (ws : List WindowInfo) : WindowInfo :=
  ws.foldl (fun best x => if best.area < x.area then x else best) w

/-- The within-tier pick used by both the SUPER_STRONG and STRONG branches
(lines 190-195 and 205-210): the largest-area foreground window of the tier
when one is foreground, else the largest-area window of the tier. -/
def tierPick (s : WindowInfo) (srest : List WindowInfo) : WindowInfo :=
  match (s :: srest).filter (fun w => w.is_foreground) with
  | f :: frest => pyMaxArea f frest
  | [] => pyMaxArea s srest

/-- The priority-based selection of DentwebOCRExtractor.find_dentweb_window
(lines 183-233) on the enumerated candidate list: SUPER_STRONG tier first,
then STRONG, each tier preferring foreground windows and breaking ties by
largest area; with neither tier present, the largest window among those with
visible area; as a last resort the first enumerated window. -/
def find_dentweb_window_select (ws : List WindowInfo) : Option WindowInfo :=
  match ws with
  | [] => none
  | w0 :: _ =>
      match ws.filter (fun w => w.is_super_strong) with
      | s :: srest => some (tierPick s srest)
      | [] =>
          match ws.filter (fun w => w.is_strong_match) with
          | s :: srest => some (tierPick s srest)
          | [] =>
              match ws.filter (fun w => w.is_visible_area) with
              | v :: vrest => some (pyMaxArea v vrest)
              | [] => some w0

/-! ## Pipeline stage runner (ui/automation_flow.py) -/

/-- Per-stage status (automation_flow.py line 50). -/
inductive StepStatus where
  | pending
  | running
  | completed
  | failed
deriving Repr, DecidableEq

/-- One entry of the automation_steps list (lines 45-64). -/
structure AutoStep where
  id : String
  title : String
  status : StepStatus
deriving Repr, DecidableEq

/-- One entry of the step_buttons UI list: the stage id and the current
button caption, which update_step_status keeps in sync with the status
(completed sets 재실행, failed sets 재시도, pending sets 실행,
lines 893-909). -/
structure StepButton where
  step_id : String
  text : String
deriving Repr, DecidableEq

/-- The button-caption lookup loop at the top of execute_step
(lines 478-482): the caption of the first button with the requested stage id,
or the empty string. -/
def buttonTextFor (buttons : List StepButton) (stepId : String) : String :=
  match buttons.find? (fun b => b.step_id = stepId) with
  | some b => b.text
  | none => ""

/-- Replace the first element satisfying p (the for/if/break idiom used by
reset_step_status and update_step_status). -/
def updateFirst (p : α → Bool) (f : α → α) : List α → List α
  | [] => []
  | x :: xs => if p x then f x :: xs else x :: updateFirst p f xs

/-- AutomationFlowWidget.reset_step_status (lines 520-536) restricted to the
automation_steps store: set the first stage with the given id back to
pending (the remaining lines only restyle that stage's button). -/
def resetStepStatus (steps : List AutoStep) (stepId : String) :
    List AutoStep :=
  updateFirst (fun s => s.id = stepId)
    (fun s => { s with status := .pending }) steps

/-- AutomationFlowWidget.update_step_status (lines 880-910) restricted to the
automation_steps store: set the first stage with the given id to the new
status. -/
def updateStepStatus (steps : List AutoStep) (stepId : String)
    (st : StepStatus) : List AutoStep :=
  updateFirst (fun s => s.id = stepId) (fun s => { s with status := st }) steps

/-- The dispatch tail of execute_step (lines 512-518) cut at the point each
stage handler marks its stage running: execute_ocr_extraction,
execute_webceph_analysis and execute_pdf_download all re-check the settings
and then set their stage to running (lines 541-545, 617-621); the worker or
dialog they then launch is an external effect beyond this state machine.  An
unknown stage id falls through with no status change. -/
def runStepHandler (steps : List AutoStep) (stepId : String)
    (settingsOk : Bool) : List AutoStep :=
  if stepId = "ocr_extraction" || stepId = "webceph_analysis"
      || stepId = "pdf_download" then
    if settingsOk then updateStepStatus steps stepId .running else steps
  else steps

/-- AutomationFlowWidget.execute_step (lines 475-518): read the stage
button's caption, treat 재실행 or 재시도 as the explicit re-run override and
reset that stage first; stop when the settings check fails or the id is
unknown; without the override, reject the request whenever any earlier stage
is not completed (warning dialog, no state change); otherwise dispatch to the
stage handler. -/
def execute_step (steps : List AutoStep) (buttons : List StepButton)
    (settingsOk : Bool) (stepId : String) : List AutoStep :=
  let buttonText := buttonTextFor buttons stepId
  let isRerun := buttonText = "재실행" || buttonText = "재시도"
  let steps1 := if isRerun then resetStepStatus steps stepId else steps
  if !settingsOk then steps1
  else
    match steps1.findIdx? (fun s => s.id = stepId) with
    | none => steps1
    | some i =>
        if !isRerun
            && (steps1.take i).any (fun s => s.status ≠ StepStatus.completed)
        then steps1
        else runStepHandler steps1 stepId settingsOk

/-! ## New-patient detection (web_ceph_automation.py,
detect_and_select_new_patient) -/

/-- The patient fields the detection step consults; the source uses dict.get
truthiness, so the empty string models an absent field. -/
structure PatientQuery where
  chart_no : String
  name : String
  first_name : String
  last_name : String
deriving Repr, DecidableEq

/-- The search keyword list built at lines 901-909, in source order:
chart_no, name, first_name, last_name, keeping only truthy fields. -/
def searchKeywords (pd : PatientQuery) : List String :=
  (if pd.chart_no ≠ "" then [pd.chart_no] else [])
    ++ (if pd.name ≠ "" then [pd.name] else [])
    ++ (if pd.first_name ≠ "" then [pd.first_name] else [])
    ++ (if pd.last_name ≠ "" then [pd.last_name] else [])

/-- The per-entry field matching of _select_patient_by_matching
(lines 1055-1076): over the four optional fields, count how many are checked
(truthy) and how many of those occur in the entry text. -/
def fieldChecks (pd : PatientQuery) (text : String) : Nat × Nat :=
  [pd.chart_no, pd.name, pd.first_name, pd.last_name].foldl
    (fun acc v =>
      if v ≠ "" then
        (acc.1 + (if strContains text v then 1 else 0), acc.2 + 1)
      else acc)
    (0, 0)

/-- The 50-percent threshold test at line 1079: at least one field checked
and matches / total_checks at least one half (matches and total are small
naturals, so the float comparison is exactly 2 * matches at least total). -/
def entryMatches (pd : PatientQuery) (text : String) : Bool :=
  let mt := fieldChecks pd text
  0 < mt.2 && mt.2 ≤ 2 * mt.1

/-- WebCephAutomation._select_patient_by_matching (lines 1028-1099) on the
texts of the entries the first nonempty element pattern found ([] models that
every pattern came back empty): click the first of the first five entries
meeting the 50-percent threshold, else fall back to clicking entry 0
(lines 1085-1090); the result is the index of the clicked entry. -/
def select_patient_by_matching (elements : List String) (pd : PatientQuery) :
    Option Nat :=
  match elements with
  | [] => none
  | _ :: _ =>
      match (elements.take 5).findIdx? (entryMatches pd) with
      | some i => some i
      | none => some 0

/-- Which detection method ended up selecting the patient. -/
inductive SelectMethod where
  | firstItem
  | search (keyword : String)
  | matching (idx : Nat)
  | failed
deriving Repr, DecidableEq

/-- The dashboard state the detection step works against: whether the
first-item click of _select_first_patient_in_list succeeds, which keywords
_search_and_select_patient succeeds on, and the entry texts available to
_select_patient_by_matching. -/
structure DashboardPage where
  firstInListOk : Bool
  searchOk : String → Bool
  listElements : List String

/-- WebCephAutomation.detect_and_select_new_patient (lines 886-933): method 1
is the positional first-item-in-the-refreshed-list click (line 912); only
when it fails are the search keywords tried in order (lines 918-921); only
when every search fails is pattern matching tried (line 924); the result
records the method that selected, or failed. -/
def detect_and_select_new_patient (page : DashboardPage) (pd : PatientQuery) :
    SelectMethod :=
  if page.firstInListOk then .firstItem
  else
    match (searchKeywords pd).find? page.searchOk with
    | some kw => .search kw
    | none =>
        match select_patient_by_matching page.listElements pd with
        | some i => .matching i
        | none => .failed

/-! ## OCR patient-info parsing (dentweb_automation.py, parse_patient_info)

The regex engine is the external text-recognition collaborator; it enters the
model as an oracle giving, per pattern string and line, the captured group
(or the group-2 capture for the resident-number pattern) and the re.sub
normalizations.  Every piece of control flow of parse_patient_info —
the line splitting, the pattern-list loops with their break structure, the
first-line-first fallbacks, the address capture loop and the gender
decision — is translated directly. -/

/-- The regex/text operations parse_patient_info delegates to re. -/
structure TextOps where
  search : String → String → Option String
  search2 : String → String → Option String
  subFirstLineBirth : String → String
  subBirthDate : String → String
  isItemHeader : String → Bool

/-- The patient dictionary, as an ordered association list; Python dict
assignment replaces in place when the key exists, else appends. -/
def dictSet (d : List (String × String)) (k v : String) :
    List (String × String) :=
  if d.any (fun kv => kv.1 = k) then
    d.map (fun kv => if kv.1 = k then (k, v) else kv)
  else d ++ [(k, v)]

/-- Dictionary lookup with the empty string for a missing key (the truthiness
checks of the source read existing keys only). -/
def dictGet (d : List (String × String)) (k : String) : String :=
  match d.find? (fun kv => kv.1 = k) with
  | some kv => kv.2
  | none => ""

/-- The initial dictionary literal of parse_patient_info (lines 690-699):
every field empty except capture_date, which is the current date. -/
def patientInfoInit (today : String) : List (String × String) :=
  [("chart_no", ""), ("last_name", ""), ("first_name", ""),
   ("birth_date", ""), ("phone", ""), ("address", ""), ("gender", ""),
   ("capture_date", today)]

/-- top_line_name_patterns (lines 710-716). -/
def topLineNamePatterns : List String :=
  ["([가-힣]\x7b2,4\x7d)\\s*\\(.*?\\)",
   "([가-힣]\x7b2,4\x7d)\\s*님",
   "([가-힣]\x7b2,4\x7d)\\s*환자",
   "^([가-힣]\x7b2,4\x7d)\\s",
   "([가-힣]\x7b2,4\x7d)\\s*\\d+Y"]

/-- top_line_birth_patterns (lines 729-732). -/
def topLineBirthPatterns : List String :=
  ["([0-9]\x7b4\x7d[-./][0-9]\x7b1,2\x7d[-./][0-9]\x7b1,2\x7d)",
   "([0-9]\x7b4\x7d년\\s*[0-9]\x7b1,2\x7d월\\s*[0-9]\x7b1,2\x7d일)"]

/-- chart_patterns (lines 744-748). -/
def chartPatterns : List String :=
  ["Chart No[.\\s:]*([0-9]+)",
   "차트번호[:\\s]*([0-9]+)",
   "No[.\\s:]*([0-9]+)"]

/-- name_patterns of the whole-text re-search (lines 772-779). -/
def namePatterns : List String :=
  ["이름[:\\s]*([가-힣]\x7b2,4\x7d)",
   "성명[:\\s]*([가-힣]\x7b2,4\x7d)",
   "([가-힣]\x7b2,4\x7d)\\s*\\(",
   "([가-힣]\x7b2,4\x7d)\\s*님",
   "([가-힣]\x7b2,4\x7d)\\s*환자",
   "^([가-힣]\x7b2,4\x7d)$"]

/-- birth_patterns of the whole-text re-search (lines 795-801). -/
def birthPatterns : List String :=
  ["생년월일[:\\s]*([0-9]\x7b4\x7d[-./][0-9]\x7b1,2\x7d[-./][0-9]\x7b1,2\x7d)",
   "출생[:\\s]*([0-9]\x7b4\x7d[-./][0-9]\x7b1,2\x7d[-./][0-9]\x7b1,2\x7d)",
   "생일[:\\s]*([0-9]\x7b4\x7d[-./][0-9]\x7b1,2\x7d[-./][0-9]\x7b1,2\x7d)",
   "DOB[:\\s]*([0-9]\x7b4\x7d[-./][0-9]\x7b1,2\x7d[-./][0-9]\x7b1,2\x7d)",
   "([0-9]\x7b4\x7d[-./][0-9]\x7b1,2\x7d[-./][0-9]\x7b1,2\x7d)"]

/-- phone_patterns (lines 813-816). -/
def phonePatterns : List String :=
  ["(01[016789]-\\d\x7b3,4\x7d-\\d\x7b4\x7d)",
   "(01[016789]\\d\x7b7,8\x7d)"]

/-- gender_text_patterns (lines 842-845). -/
def genderTextPatterns : List String :=
  ["\\((남)\\s*\\d+Y", "\\((여)\\s*\\d+Y"]

/-- jumin_pattern, the resident-number pattern (line 857); the gender digit
is its second capture group. -/
def juminPattern : String :=
  "(\\d\x7b6\x7d)[- ]?(\\d)\\d\x7b6\x7d"

/-- Step 1 (lines 709-726): name from the first line; the loop breaks only
on a captured name of length at least 2 (shorter captures let it continue);
the first character becomes last_name, the rest first_name. -/
def parseStage1TopName (o : TextOps) (first_line : String)
    (d : List (String × String)) : List (String × String) :=
  match topLineNamePatterns.findSome?
      (fun p => (o.search p first_line).filter (fun n => 2 ≤ n.length)) with
  | some fn => dictSet (dictSet d "last_name" (fn.take 1)) "first_name" (fn.drop 1)
  | none => d

/-- Step 2 (lines 728-741): birth date from the first line, normalized by the
re.sub chain. -/
def parseStage2TopBirth (o : TextOps) (first_line : String)
    (d : List (String × String)) : List (String × String) :=
  match topLineBirthPatterns.findSome? (fun p => o.search p first_line) with
  | some b => dictSet d "birth_date" (o.subFirstLineBirth b)
  | none => d

/-- Step 3 (lines 743-768): chart number from the first line, else the first
match anywhere in the text. -/
def parseStage3Chart (o : TextOps) (first_line : String) (lines : List String)
    (d : List (String × String)) : List (String × String) :=
  let d1 :=
    match chartPatterns.findSome? (fun p => o.search p first_line) with
    | some c => dictSet d "chart_no" c
    | none => d
  if dictGet d1 "chart_no" = "" then
    match lines.findSome?
        (fun line => chartPatterns.findSome? (fun p => o.search p line)) with
    | some c => dictSet d1 "chart_no" c
    | none => d1
  else d1

/-- Step 4 (lines 770-791): whole-text name re-search when the first line
gave none, with the same length-2 break condition. -/
def parseStage4Name (o : TextOps) (lines : List String)
    (d : List (String × String)) : List (String × String) :=
  if dictGet d "first_name" = "" then
    match lines.findSome? (fun line =>
        namePatterns.findSome?
          (fun p => (o.search p line).filter (fun n => 2 ≤ n.length))) with
    | some fn =>
        dictSet (dictSet d "last_name" (fn.take 1)) "first_name" (fn.drop 1)
    | none => d
  else d

/-- Step 5 (lines 793-811): whole-text birth re-search when the first line
gave none. -/
def parseStage5Birth (o : TextOps) (lines : List String)
    (d : List (String × String)) : List (String × String) :=
  if dictGet d "birth_date" = "" then
    match lines.findSome?
        (fun line => birthPatterns.findSome? (fun p => o.search p line)) with
    | some b => dictSet d "birth_date" (o.subBirthDate b)
    | none => d
  else d

/-- Phone step (lines 812-823): first match across the lines; the
not-yet-set guard keeps later matches from overwriting. -/
def parseStagePhone (o : TextOps) (lines : List String)
    (d : List (String × String)) : List (String × String) :=
  match lines.findSome?
      (fun line => phonePatterns.findSome? (fun p => o.search p line)) with
  | some ph => dictSet d "phone" ph
  | none => d

/-- Everything after the first occurrence of a character. -/
def afterFirstChar (c : Char) : List Char → List Char
  | [] => []
  | d :: ds => if d = c then ds else afterFirstChar c ds

/-- The value appended when a line mentions the address marker
(line 834): everything after the first colon, stripped, else the whole
line. -/
def extractAddr (line : String) : String :=
  if strContains line ":" then
    pyStrip (String.mk (afterFirstChar ':' line.toList))
  else line

/-- The address capture loop (lines 825-836): once capturing, a field-header
line or an empty line breaks; otherwise the line is appended; a line holding
the address marker appends its colon remainder and turns capturing on. -/
def collectAddressLoop (o : TextOps) :
    List String → List String → Bool → List String
  | [], acc, _ => acc
  | line :: rest, acc, capture =>
      if capture && (o.isItemHeader line || line == "") then acc
      else
        let acc1 := if capture then acc ++ [line] else acc
        if strContains line "주소" || strContains line "Address" then
          collectAddressLoop o rest (acc1 ++ [extractAddr line]) true
        else collectAddressLoop o rest acc1 capture

/-- Address step (lines 824-839): join the captured lines with spaces; with
no captured line the field stays untouched. -/
def parseStageAddress (o : TextOps) (lines : List String)
    (d : List (String × String)) : List (String × String) :=
  let addrs := collectAddressLoop o lines [] false
  if addrs ≠ [] then dictSet d "address" (String.intercalate " " addrs) else d

/-- Gender step (lines 840-876): the textual marker wins over the
resident-number digit; both empty leaves gender empty; the field is assigned
unconditionally (line 874). -/
def parseStageGender (o : TextOps) (lines : List String)
    (d : List (String × String)) : List (String × String) :=
  let gtext :=
    (lines.findSome? (fun line =>
        genderTextPatterns.findSome? (fun p => o.search p line))).getD ""
  let gjumin :=
    match lines.findSome? (fun line => o.search2 juminPattern line) with
    | some code =>
        if code = "1" || code = "3" then "남"
        else if code = "2" || code = "4" then "여"
        else ""
    | none => ""
  let gender :=
    if gtext ≠ "" then (if gtext = "남" then "M" else "F")
    else if gjumin ≠ "" then (if gjumin = "남" then "M" else "F")
    else ""
  dictSet d "gender" gender

/-- DentwebOCRExtractor.parse_patient_info (lines 682-882): strip and filter
the lines, then run the parsing steps in source order over the initial
dictionary.  The Lean function is total: it models that the Python body's
try/except returns the (partially filled) dictionary on any path instead of
raising. -/
def parse_patient_info (o : TextOps) (today ocr_text : String) :
    List (String × String) :=
  let lines := ((pySplitLines ocr_text).map pyStrip).filter (fun l => l ≠ "")
  let first_line := lines.head?.getD ""
  let d0 := patientInfoInit today
  let d1 := parseStage1TopName o first_line d0
  let d2 := parseStage2TopBirth o first_line d1
  let d3 := parseStage3Chart o first_line lines d2
  let d4 := parseStage4Name o lines d3
  let d5 := parseStage5Birth o lines d4
  let d6 := parseStagePhone o lines d5
  let d7 := parseStageAddress o lines d6
  parseStageGender o lines d7

/-- The exact key list the parser's dictionary carries. -/
def patientInfoKeys : List String :=
  ["chart_no", "last_name", "first_name", "birth_date", "phone", "address",
   "gender", "capture_date"]

/-- The degenerate oracle under which no regex ever matches: models OCR text
in which no field pattern is found. -/
def noneTextOps : TextOps :=
  ⟨fun _ _ => none, fun _ _ => none, fun b => b, fun b => b, fun _ => false⟩

/-! # Theorems -/

/-! ## Offline durable queue -/

theorem replayError_of_ne (o : HttpOutcome) (h : o ≠ .status 200) :
    replayError o = some ((replayError o).getD "") := by
  cases o with
  | status c =>
      have hc : c ≠ 200 := by rintro rfl; exact h rfl
      simp [replayError, hc]
  | exn m => simp [replayError]

theorem processQueueItem_attempted (call : QueueItem → HttpOutcome)
    (item : QueueItem) (hA : attemptableB item = true) :
    processQueueItem call item =
      match replayError (call item) with
      | none => .processed
      | some e =>
          if item.retry_count + 1 < 3 then
            .kept { item with retry_count := item.retry_count + 1,
                              last_error := some e }
          else .droppedFailed := by
  unfold attemptableB at hA
  simp only [Bool.or_eq_true, Bool.and_eq_true, decide_eq_true_eq] at hA
  rcases hA with h1 | ⟨h2, hd⟩
  · simp only [processQueueItem, h1]
    cases hre : replayError (call item) <;> simp [hre]
  · cases hdata : item.data with
    | fields doc => rw [hdata] at hd; simp at hd
    | record rid doc =>
        have hne : item.action_type ≠ "create_patient" := by
          rw [h2]; decide
        simp only [processQueueItem, h2, hne, hdata]
        cases hre : replayError (call item) <;> simp [hre]

theorem processQueueItem_skipped_of_not_handled
    (call : QueueItem → HttpOutcome) (item : QueueItem)
    (h : handledB item = false) : processQueueItem call item = .skipped := by
  unfold handledB at h
  simp only [Bool.or_eq_false_iff, decide_eq_false_iff_not] at h
  simp [processQueueItem, h.1, h.2]

theorem processQueueItem_ne_skipped (call : QueueItem → HttpOutcome)
    (item : QueueItem) (h : handledB item = true) :
    processQueueItem call item ≠ .skipped := by
  unfold handledB at h
  simp only [Bool.or_eq_true, decide_eq_true_eq] at h
  unfold processQueueItem
  rcases h with h1 | h2
  · cases hre : replayError (call item) with
    | none => simp [h1, hre]
    | some e =>
        simp [h1, hre]
        split <;> simp
  · have h1 : item.action_type ≠ "create_patient" := by rw [h2]; decide
    cases hdata : item.data with
    | record rid doc =>
        cases hre : replayError (call item) with
        | none => simp [h1, h2, hdata, hre]
        | some e =>
            simp [h1, h2, hdata, hre]
            split <;> simp
    | fields doc =>
        simp [h1, h2, hdata]
        split <;> simp

theorem process_offline_queue_singleton (call : QueueItem → HttpOutcome)
    (x : QueueItem) :
    process_offline_queue call [x] =
      match processQueueItem call x with
      | .processed => ⟨1, 0, []⟩
      | .kept x' => ⟨0, 0, [x']⟩
      | .droppedFailed => ⟨0, 1, []⟩
      | .skipped => ⟨0, 0, []⟩ := by
  cases h : processQueueItem call x <;>
    simp [process_offline_queue, replayStep, h]

/-- C1: every record-creation or result-update call whose remote HTTP request
fails — a non-success status or a raised exception — returns an unsuccessful
result and appends the failed payload to the offline queue as a fresh item
with retry count 0; both entry points are total functions of the model
(every exception path of the source is caught and returns a result
dictionary), so the in-progress pipeline is not aborted. -/
theorem remote_sync_failure_enqueued (queue : List QueueItem)
    (doc record_id now : String) (remote : HttpOutcome)
    (hfail : remote ≠ HttpOutcome.status 200) :
    ((create_patient_record queue (.ok doc) remote now).1.success = false ∧
      (create_patient_record queue (.ok doc) remote now).2 =
        queue ++ [{ id := "create_patient_" ++ now,
                    action_type := "create_patient",
                    data := .fields doc,
                    timestamp := now, retry_count := 0,
                    last_error := none }]) ∧
    ((update_analysis_result queue record_id (.ok doc) remote now).1.success
        = false ∧
      (update_analysis_result queue record_id (.ok doc) remote now).2 =
        queue ++ [{ id := "update_result_" ++ now,
                    action_type := "update_result",
                    data := .record record_id doc,
                    timestamp := now, retry_count := 0,
                    last_error := none }]) := by
  cases remote with
  | status c =>
      have hc : c ≠ 200 := by rintro rfl; exact hfail rfl
      simp [create_patient_record, update_analysis_result,
            addToOfflineQueue, hc]
  | exn e =>
      simp [create_patient_record, update_analysis_result, addToOfflineQueue]

theorem remote_sync_failure_enqueued_witness :
    HttpOutcome.status 500 ≠ HttpOutcome.status 200 ∧
    ((create_patient_record [] (.ok "fields") (.status 500) "20250101").1.success
        = false ∧
      (create_patient_record [] (.ok "fields") (.status 500) "20250101").2 =
        [{ id := "create_patient_" ++ "20250101",
           action_type := "create_patient", data := .fields "fields",
           timestamp := "20250101", retry_count := 0, last_error := none }]) :=
  ⟨by decide,
   (remote_sync_failure_enqueued [] "fields" "rec0" "20250101" (.status 500)
      (by decide)).1⟩

/-- C2: during one replay pass each attempted item is removed and counted as
processed when its remote call succeeds, and otherwise has its retry count
bumped and is kept while below 3; at 3 it is dropped and counted as a
permanent failure; hence an item enqueued with retry count 0 whose remote
call always fails is attempted in exactly three replay passes and then never
again, while one that succeeds on its second attempt is removed right after
that attempt and reported as processed. -/
theorem replay_retry_budget (item : QueueItem)
    (callF callS : QueueItem → HttpOutcome)
    (hA : attemptableB item = true) (hrc : item.retry_count = 0)
    (hF : ∀ i, callF i ≠ HttpOutcome.status 200)
    (hS : ∀ i, callS i = HttpOutcome.status 200) :
    let i1 : QueueItem :=
      { item with retry_count := 1, last_error := some (replayErrOf callF item) }
    let i2 : QueueItem :=
      { item with retry_count := 2, last_error := some (replayErrOf callF i1) }
    process_offline_queue callF [item] = ⟨0, 0, [i1]⟩ ∧
    process_offline_queue callF [i1] = ⟨0, 0, [i2]⟩ ∧
    process_offline_queue callF [i2] = ⟨0, 1, []⟩ ∧
    process_offline_queue callF [] = ⟨0, 0, []⟩ ∧
    process_offline_queue callS [i1] = ⟨1, 0, []⟩ := by
  intro i1 i2
  have hA1 : attemptableB i1 = true := hA
  have hA2 : attemptableB i2 = true := hA
  have hre : replayError (callF item) = some (replayErrOf callF item) :=
    replayError_of_ne _ (hF item)
  have hre1 : replayError (callF i1) = some (replayErrOf callF i1) :=
    replayError_of_ne _ (hF i1)
  have hre2 : replayError (callF i2) = some (replayErrOf callF i2) :=
    replayError_of_ne _ (hF i2)
  have hreS : replayError (callS i1) = none := by
    rw [hS i1]; simp [replayError]
  refine ⟨?_, ?_, ?_, ?_, ?_⟩
  · rw [process_offline_queue_singleton, processQueueItem_attempted _ _ hA,
        hre]
    simp [hrc, i1]
  · rw [process_offline_queue_singleton, processQueueItem_attempted _ _ hA1,
        hre1]
    simp [i1, i2]
  · rw [process_offline_queue_singleton, processQueueItem_attempted _ _ hA2,
        hre2]
    simp [i2]
  · rfl
  · rw [process_offline_queue_singleton, processQueueItem_attempted _ _ hA1,
        hreS]

theorem replay_retry_budget_witness :
    (attemptableB { id := "create_patient_t", action_type := "create_patient",
                    data := .fields "f", timestamp := "t", retry_count := 0,
                    last_error := none } = true) ∧
    process_offline_queue (fun _ => .status 503)
        [{ id := "create_patient_t", action_type := "create_patient",
           data := .fields "f", timestamp := "t", retry_count := 0,
           last_error := none }] =
      ⟨0, 0, [{ id := "create_patient_t", action_type := "create_patient",
                data := .fields "f", timestamp := "t", retry_count := 1,
                last_error := some (replayErrOf (fun _ => .status 503)
                  { id := "create_patient_t",
                    action_type := "create_patient", data := .fields "f",
                    timestamp := "t", retry_count := 0,
                    last_error := none }) }]⟩ :=
  ⟨by decide,
   (replay_retry_budget
      { id := "create_patient_t", action_type := "create_patient",
        data := .fields "f", timestamp := "t", retry_count := 0,
        last_error := none }
      (fun _ => .status 503) (fun _ => .status 200)
      (by decide) rfl
      (fun _ => by
        show HttpOutcome.status 503 ≠ HttpOutcome.status 200
        decide)
      (fun _ => rfl)).1⟩

/-- C9 (amended): during one replay pass, every item whose action type is one
of the two handled types ends in exactly one of the three outcomes —
processed, permanently failed, or kept in the rewritten store — so the
processed, failed and remaining counts sum to the number of handled items in
the snapshot; items of any other action type are silently dropped without
being counted. -/
theorem replay_outcome_partition (call : QueueItem → HttpOutcome)
    (queue : List QueueItem) :
    (process_offline_queue call queue).processed
      + (process_offline_queue call queue).failed
      + (process_offline_queue call queue).remaining.length
    = (queue.filter handledB).length := by
  suffices h : ∀ r : ReplayReport,
      (queue.foldl (replayStep call) r).processed
        + (queue.foldl (replayStep call) r).failed
        + (queue.foldl (replayStep call) r).remaining.length
      = r.processed + r.failed + r.remaining.length
        + (queue.filter handledB).length by
    simpa [process_offline_queue] using h ⟨0, 0, []⟩
  induction queue with
  | nil => intro r; simp
  | cons x xs ih =>
      intro r
      rw [List.foldl_cons, List.filter_cons]
      by_cases hx : handledB x
      · have hne := processQueueItem_ne_skipped call x hx
        rw [ih]
        cases ho : processQueueItem call x with
        | processed => simp [replayStep, ho, hx]; omega
        | kept x' => simp [replayStep, ho, hx]; omega
        | droppedFailed => simp [replayStep, ho, hx]; omega
        | skipped => exact absurd ho hne
      · have hskip := processQueueItem_skipped_of_not_handled call x
          (by simpa using hx)
        rw [ih]
        simp [replayStep, hskip, hx]

/-- C9 counterexample: a replay pass over a single-item snapshot whose
action type is unrecognized reports processed 0, failed 0, remaining 0 —
the counts sum to 0, not to the snapshot length 1: the item vanished
uncounted. -/
theorem replay_unknown_action_uncounted :
    (process_offline_queue (fun _ => .status 200)
        [{ id := "x", action_type := "noop", data := .fields "d",
           timestamp := "t", retry_count := 0, last_error := none }]).processed
      + (process_offline_queue (fun _ => .status 200)
          [{ id := "x", action_type := "noop", data := .fields "d",
             timestamp := "t", retry_count := 0,
             last_error := none }]).failed
      + (process_offline_queue (fun _ => .status 200)
          [{ id := "x", action_type := "noop", data := .fields "d",
             timestamp := "t", retry_count := 0,
             last_error := none }]).remaining.length = 0 ∧
    [{ id := "x", action_type := "noop", data := Payload.fields "d",
       timestamp := "t", retry_count := 0,
       last_error := none : QueueItem }].length = 1 := by
  constructor
  · rfl
  · rfl

/-! ## Target locator -/

theorem findFirstMatch_first (page : Strategy → Option Element) :
    ∀ (L : List Strategy) (i : Nat) (s : Strategy) (e : Element),
      L[i]? = some s → page s = some e →
      (∀ j t, j < i → L[j]? = some t → page t = none) →
      findFirstMatch page L = some e := by
  intro L
  induction L with
  | nil => intro i s e hi _ _; simp at hi
  | cons x xs ih =>
      intro i s e hi hpage hpre
      cases i with
      | zero =>
          simp only [List.getElem?_cons_zero, Option.some.injEq] at hi
          subst hi
          simp [findFirstMatch, hpage]
      | succ n =>
          have hx : page x = none := hpre 0 x (Nat.succ_pos n) (by simp)
          simp only [List.getElem?_cons_succ] at hi
          simp only [findFirstMatch, hx]
          exact ih n s e hi hpage
            (fun j t hj hjt => hpre (j + 1) t (Nat.succ_lt_succ hj)
              (by simpa using hjt))

theorem clickLoginButtonLoop_first (page : Strategy → Option Element) :
    ∀ (L : List Strategy) (i : Nat) (s : Strategy) (b : Element),
      L[i]? = some s → page s = some b → interactable b = true →
      (∀ j t, j < i → L[j]? = some t →
        ∀ b', page t = some b' → interactable b' = false) →
      clickLoginButtonLoop page L = some b := by
  intro L
  induction L with
  | nil => intro i s b hi _ _ _; simp at hi
  | cons x xs ih =>
      intro i s b hi hpage hint hpre
      cases i with
      | zero =>
          simp only [List.getElem?_cons_zero, Option.some.injEq] at hi
          subst hi
          simp [clickLoginButtonLoop, hpage, hint]
      | succ n =>
          simp only [List.getElem?_cons_succ] at hi
          have hrec : clickLoginButtonLoop page (x :: xs) =
              clickLoginButtonLoop page xs := by
            cases hx : page x with
            | none => simp [clickLoginButtonLoop, hx]
            | some b' =>
                have hb' : interactable b' = false :=
                  hpre 0 x (Nat.succ_pos n) (by simp) b' hx
                simp [clickLoginButtonLoop, hx, hb']
          rw [hrec]
          exact ih n s b hi hpage hint
            (fun j t hj hjt b' hb' => hpre (j + 1) t (Nat.succ_lt_succ hj)
              (by simpa using hjt) b' hb')

/-- C3: both locator loops evaluate their strategy list strictly in order
and return the target produced by the lowest-index matching strategy:
for the field finder a strategy matches when the page resolves it, for the
login-button loop when the resolved element is also enabled and displayed;
later strategies that would also match are never consulted and no scoring is
performed across strategies. -/
theorem locator_first_match_wins :
    (∀ (page : Strategy → Option Element) (L : List Strategy) (i : Nat)
        (s : Strategy) (e : Element),
      L[i]? = some s → page s = some e →
      (∀ j t, j < i → L[j]? = some t → page t = none) →
      findFirstMatch page L = some e) ∧
    (∀ (page : Strategy → Option Element) (L : List Strategy) (i : Nat)
        (s : Strategy) (b : Element),
      L[i]? = some s → page s = some b → interactable b = true →
      (∀ j t, j < i → L[j]? = some t →
        ∀ b', page t = some b' → interactable b' = false) →
      clickLoginButtonLoop page L = some b) :=
  ⟨fun page => findFirstMatch_first page,
   fun page => clickLoginButtonLoop_first page⟩

theorem locator_first_match_wins_witness :
    findFirstMatch
        (fun s => if s.selector = "a" then none else some ⟨true, true⟩)
        [⟨"id", "a"⟩, ⟨"id", "b"⟩, ⟨"id", "c"⟩] = some ⟨true, true⟩ ∧
    clickLoginButtonLoop
        (fun s => if s.selector = "a" then none else some ⟨true, true⟩)
        [⟨"id", "a"⟩, ⟨"id", "b"⟩, ⟨"id", "c"⟩] = some ⟨true, true⟩ :=
  ⟨locator_first_match_wins.1
      (fun s => if s.selector = "a" then none else some ⟨true, true⟩)
      [⟨"id", "a"⟩, ⟨"id", "b"⟩, ⟨"id", "c"⟩] 1 ⟨"id", "b"⟩ ⟨true, true⟩
      rfl rfl
      (fun j t hj hjt => by
        have hj0 : j = 0 := Nat.lt_one_iff.mp hj
        subst hj0
        simp only [List.getElem?_cons_zero, Option.some.injEq] at hjt
        subst hjt
        rfl),
   locator_first_match_wins.2
      (fun s => if s.selector = "a" then none else some ⟨true, true⟩)
      [⟨"id", "a"⟩, ⟨"id", "b"⟩, ⟨"id", "c"⟩] 1 ⟨"id", "b"⟩ ⟨true, true⟩
      rfl rfl rfl
      (fun j t hj hjt b' hb' => by
        have hj0 : j = 0 := Nat.lt_one_iff.mp hj
        subst hj0
        simp only [List.getElem?_cons_zero, Option.some.injEq] at hjt
        subst hjt
        simp at hb')⟩

theorem findFirstMatch_eq_none_iff (page : Strategy → Option Element)
    (L : List Strategy) :
    findFirstMatch page L = none ↔ ∀ s ∈ L, page s = none := by
  induction L with
  | nil => simp [findFirstMatch]
  | cons x xs ih =>
      cases hx : page x <;> simp [findFirstMatch, hx, ih]

/-- C7 (amended): with no matching strategy the email-field locator returns
none precisely after exhausting every candidate (the exhaustion equivalence
holds for every strategy list), and the credentials step then raises a fixed
generic error naming the field; the error does not enumerate the attempted
strategies. -/
theorem locator_exhaustion_generic_error
    (pageE pageP : Strategy → Option Element)
    (hE : ∀ s ∈ email_patterns, pageE s = none) :
    find_email_field pageE = none ∧
    input_credentials pageE pageP = .error "이메일 입력 필드를 찾을 수 없습니다" ∧
    (∀ (page : Strategy → Option Element) (L : List Strategy),
      findFirstMatch page L = none ↔ ∀ s ∈ L, page s = none) := by
  have h1 : find_email_field pageE = none :=
    (findFirstMatch_eq_none_iff pageE email_patterns).mpr hE
  refine ⟨h1, ?_, fun page L => findFirstMatch_eq_none_iff page L⟩
  unfold input_credentials
  rw [h1]

theorem locator_exhaustion_generic_error_witness :
    (∀ s ∈ email_patterns, (fun _ : Strategy => (none : Option Element)) s
        = none) ∧
    input_credentials (fun _ => none) (fun _ => some ⟨true, true⟩) =
      .error "이메일 입력 필드를 찾을 수 없습니다" :=
  ⟨fun _ _ => rfl,
   (locator_exhaustion_generic_error (fun _ => none)
      (fun _ => some ⟨true, true⟩) (fun _ _ => rfl)).2.1⟩

/-- C7 counterexample: with zero matching strategies the raised error is the
fixed message naming the email field; it does not enumerate the attempted
strategies — already the first attempted selector, id_email, does not occur
in the message. -/
theorem locator_error_does_not_enumerate :
    input_credentials (fun _ => none) (fun _ => none) =
      .error "이메일 입력 필드를 찾을 수 없습니다" ∧
    errorEnumeratesStrategies "이메일 입력 필드를 찾을 수 없습니다"
      email_patterns = false ∧
    strContains "이메일 입력 필드를 찾을 수 없습니다"
      (Strategy.selector ⟨"id", "id_email"⟩) = false := by
  refine ⟨rfl, ?_, by decide⟩
  decide

/-! ## Window acquirer -/

theorem pyMaxArea_cons (w x : WindowInfo) (xs : List WindowInfo) :
    pyMaxArea w (x :: xs) = pyMaxArea (if w.area < x.area then x else w) xs :=
  rfl

theorem pyMaxArea_mem (ws : List WindowInfo) :
    ∀ w, pyMaxArea w ws ∈ w :: ws := by
  induction ws with
  | nil => intro w; simp [pyMaxArea]
  | cons x xs ih =>
      intro w
      rw [pyMaxArea_cons]
      by_cases hc : w.area < x.area
      · have h := ih x
        simp only [if_pos hc]
        simp only [List.mem_cons] at h ⊢
        tauto
      · have h := ih w
        simp only [if_neg hc]
        simp only [List.mem_cons] at h ⊢
        tauto

theorem pyMaxArea_le (ws : List WindowInfo) :
    ∀ w, ∀ x ∈ w :: ws, x.area ≤ (pyMaxArea w ws).area := by
  induction ws with
  | nil =>
      intro w x hx
      simp only [List.mem_singleton] at hx
      subst hx
      exact le_refl _
  | cons y ys ih =>
      intro w x hx
      rw [pyMaxArea_cons]
      have hmax := ih (if w.area < y.area then y else w)
      have hw : w.area ≤ (if w.area < y.area then y else w).area := by
        split <;> omega
      have hy : y.area ≤ (if w.area < y.area then y else w).area := by
        split <;> omega
      simp only [List.mem_cons] at hx
      rcases hx with rfl | rfl | hx
      · exact le_trans hw (hmax _ (by simp))
      · exact le_trans hy (hmax _ (by simp))
      · exact hmax x (by simp [hx])

theorem tierPick_mem (s : WindowInfo) (srest : List WindowInfo) :
    tierPick s srest ∈ s :: srest := by
  unfold tierPick
  cases hf : (s :: srest).filter (fun w => w.is_foreground) with
  | nil => exact pyMaxArea_mem srest s
  | cons f frest =>
      have hm : pyMaxArea f frest ∈ f :: frest := pyMaxArea_mem frest f
      rw [← hf] at hm
      exact List.mem_of_mem_filter hm

theorem tierPick_foreground (s : WindowInfo) (srest : List WindowInfo)
    (h : ∃ x ∈ s :: srest, x.is_foreground = true) :
    (tierPick s srest).is_foreground = true ∧
    ∀ x ∈ s :: srest, x.is_foreground = true →
      x.area ≤ (tierPick s srest).area := by
  unfold tierPick
  cases hf : (s :: srest).filter (fun w => w.is_foreground) with
  | nil =>
      obtain ⟨x, hx, hfg⟩ := h
      have hmem : x ∈ (s :: srest).filter (fun w => w.is_foreground) :=
        List.mem_filter.mpr ⟨hx, by simp [hfg]⟩
      rw [hf] at hmem
      simp at hmem
  | cons f frest =>
      constructor
      · have hm : pyMaxArea f frest ∈ f :: frest := pyMaxArea_mem frest f
        rw [← hf] at hm
        simpa using (List.mem_filter.mp hm).2
      · intro x hx hfg
        have hm : x ∈ f :: frest := by
          rw [← hf]
          exact List.mem_filter.mpr ⟨hx, by simp [hfg]⟩
        exact pyMaxArea_le frest f x hm

theorem tierPick_no_foreground (s : WindowInfo) (srest : List WindowInfo)
    (h : ∀ x ∈ s :: srest, x.is_foreground = false) :
    ∀ x ∈ s :: srest, x.area ≤ (tierPick s srest).area := by
  unfold tierPick
  have hf : (s :: srest).filter (fun w => w.is_foreground) = [] := by
    rw [List.filter_eq_nil_iff]
    intro a ha
    simp [h a ha]
  rw [hf]
  exact pyMaxArea_le srest s

/-- C4 (amended): the acquirer always selects from the highest pattern tier
present — a SUPER_STRONG candidate beats every STRONG candidate even when
the latter is foreground or larger — and within the SUPER_STRONG and STRONG
tiers it picks a largest-area foreground window when the tier has one, else
the tier's largest-area window; when only GENERAL candidates remain, the
foreground state is ignored and the largest-area window among those with
visible area is picked. -/
theorem window_tier_selection (ws : List WindowInfo) (w : WindowInfo)
    (hw : find_dentweb_window_select ws = some w) :
    ((∃ x ∈ ws, x.is_super_strong = true) →
      w ∈ ws ∧ w.is_super_strong = true ∧
      ((∃ x ∈ ws, x.is_super_strong = true ∧ x.is_foreground = true) →
        w.is_foreground = true ∧
        ∀ x ∈ ws, x.is_super_strong = true → x.is_foreground = true →
          x.area ≤ w.area) ∧
      ((∀ x ∈ ws, x.is_super_strong = true → x.is_foreground = false) →
        ∀ x ∈ ws, x.is_super_strong = true → x.area ≤ w.area)) ∧
    ((∀ x ∈ ws, x.is_super_strong = false) →
      (∃ x ∈ ws, x.is_strong_match = true) →
      w ∈ ws ∧ w.is_strong_match = true ∧
      ((∃ x ∈ ws, x.is_strong_match = true ∧ x.is_foreground = true) →
        w.is_foreground = true ∧
        ∀ x ∈ ws, x.is_strong_match = true → x.is_foreground = true →
          x.area ≤ w.area) ∧
      ((∀ x ∈ ws, x.is_strong_match = true → x.is_foreground = false) →
        ∀ x ∈ ws, x.is_strong_match = true → x.area ≤ w.area)) ∧
    ((∀ x ∈ ws, x.is_super_strong = false) →
      (∀ x ∈ ws, x.is_strong_match = false) →
      (∃ x ∈ ws, x.is_visible_area = true) →
      w ∈ ws ∧ w.is_visible_area = true ∧
      ∀ x ∈ ws, x.is_visible_area = true → x.area ≤ w.area) := by
  cases ws with
  | nil => simp [find_dentweb_window_select] at hw
  | cons w0 rest =>
  cases hss : (w0 :: rest).filter (fun w => w.is_super_strong) with
  | cons s srest =>
      have hfind : find_dentweb_window_select (w0 :: rest) =
          some (tierPick s srest) := by
        simp only [find_dentweb_window_select, hss]
      rw [hfind, Option.some.injEq] at hw
      subst hw
      have hmem : tierPick s srest ∈ (w0 :: rest).filter
          (fun w => w.is_super_strong) := by
        rw [hss]; exact tierPick_mem s srest
      have hin : tierPick s srest ∈ w0 :: rest := List.mem_of_mem_filter hmem
      have hsup : (tierPick s srest).is_super_strong = true := by
        simpa using (List.mem_filter.mp hmem).2
      refine ⟨fun _ => ⟨hin, hsup, ?_, ?_⟩, fun hno _ => ?_, fun hno _ _ => ?_⟩
      · intro ⟨x, hx, hxs, hxf⟩
        have hxmem : x ∈ s :: srest := by
          rw [← hss]
          exact List.mem_filter.mpr ⟨hx, by simp [hxs]⟩
        have hres := tierPick_foreground s srest ⟨x, hxmem, hxf⟩
        refine ⟨hres.1, fun y hy hys hyf => hres.2 y ?_ hyf⟩
        rw [← hss]
        exact List.mem_filter.mpr ⟨hy, by simp [hys]⟩
      · intro hnofg x hx hxs
        have hall : ∀ y ∈ s :: srest, y.is_foreground = false := by
          intro y hy
          rw [← hss] at hy
          have := List.mem_filter.mp hy
          exact hnofg y this.1 (by simpa using this.2)
        refine tierPick_no_foreground s srest hall x ?_
        rw [← hss]
        exact List.mem_filter.mpr ⟨hx, by simp [hxs]⟩
      · exact absurd hsup (by simp [hno _ hin])
      · exact absurd hsup (by simp [hno _ hin])
  | nil =>
      have hnosup : ∀ x ∈ w0 :: rest, x.is_super_strong = false := by
        intro x hx
        by_contra hc
        have hmem : x ∈ (w0 :: rest).filter (fun w => w.is_super_strong) :=
          List.mem_filter.mpr ⟨hx, by simpa using hc⟩
        rw [hss] at hmem
        simp at hmem
      cases hst : (w0 :: rest).filter (fun w => w.is_strong_match) with
      | cons s srest =>
          have hfind : find_dentweb_window_select (w0 :: rest) =
              some (tierPick s srest) := by
            simp only [find_dentweb_window_select, hss, hst]
          rw [hfind, Option.some.injEq] at hw
          subst hw
          have hmem : tierPick s srest ∈ (w0 :: rest).filter
              (fun w => w.is_strong_match) := by
            rw [hst]; exact tierPick_mem s srest
          have hin : tierPick s srest ∈ w0 :: rest :=
            List.mem_of_mem_filter hmem
          have hstr : (tierPick s srest).is_strong_match = true := by
            simpa using (List.mem_filter.mp hmem).2
          refine ⟨fun ⟨x, hx, hxs⟩ => absurd hxs (by simp [hnosup x hx]),
            fun _ _ => ⟨hin, hstr, ?_, ?_⟩,
            fun _ hno _ => absurd hstr (by simp [hno _ hin])⟩
          · intro ⟨x, hx, hxs, hxf⟩
            have hxmem : x ∈ s :: srest := by
              rw [← hst]
              exact List.mem_filter.mpr ⟨hx, by simp [hxs]⟩
            have hres := tierPick_foreground s srest ⟨x, hxmem, hxf⟩
            refine ⟨hres.1, fun y hy hys hyf => hres.2 y ?_ hyf⟩
            rw [← hst]
            exact List.mem_filter.mpr ⟨hy, by simp [hys]⟩
          · intro hnofg x hx hxs
            have hall : ∀ y ∈ s :: srest, y.is_foreground = false := by
              intro y hy
              rw [← hst] at hy
              have := List.mem_filter.mp hy
              exact hnofg y this.1 (by simpa using this.2)
            refine tierPick_no_foreground s srest hall x ?_
            rw [← hst]
            exact List.mem_filter.mpr ⟨hx, by simp [hxs]⟩
      | nil =>
          have hnostr : ∀ x ∈ w0 :: rest, x.is_strong_match = false := by
            intro x hx
            by_contra hc
            have hmem : x ∈ (w0 :: rest).filter
                (fun w => w.is_strong_match) :=
              List.mem_filter.mpr ⟨hx, by simpa using hc⟩
            rw [hst] at hmem
            simp at hmem
          cases hv : (w0 :: rest).filter (fun w => w.is_visible_area) with
          | cons v vrest =>
              have hfind : find_dentweb_window_select (w0 :: rest) =
                  some (pyMaxArea v vrest) := by
                simp only [find_dentweb_window_select, hss, hst, hv]
              rw [hfind, Option.some.injEq] at hw
              subst hw
              have hmem : pyMaxArea v vrest ∈ (w0 :: rest).filter
                  (fun w => w.is_visible_area) := by
                rw [hv]; exact pyMaxArea_mem vrest v
              have hin : pyMaxArea v vrest ∈ w0 :: rest :=
                List.mem_of_mem_filter hmem
              have hvis : (pyMaxArea v vrest).is_visible_area = true := by
                simpa using (List.mem_filter.mp hmem).2
              refine ⟨fun ⟨x, hx, hxs⟩ => absurd hxs (by simp [hnosup x hx]),
                fun _ ⟨x, hx, hxs⟩ => absurd hxs (by simp [hnostr x hx]),
                fun _ _ _ => ⟨hin, hvis, ?_⟩⟩
              intro x hx hxv
              refine pyMaxArea_le vrest v x ?_
              rw [← hv]
              exact List.mem_filter.mpr ⟨hx, by simp [hxv]⟩
          | nil =>
              have hnovis : ∀ x ∈ w0 :: rest, x.is_visible_area = false := by
                intro x hx
                by_contra hc
                have hmem : x ∈ (w0 :: rest).filter
                    (fun w => w.is_visible_area) :=
                  List.mem_filter.mpr ⟨hx, by simpa using hc⟩
                rw [hv] at hmem
                simp at hmem
              exact ⟨fun ⟨x, hx, hxs⟩ => absurd hxs (by simp [hnosup x hx]),
                fun _ ⟨x, hx, hxs⟩ => absurd hxs (by simp [hnostr x hx]),
                fun _ _ ⟨x, hx, hxv⟩ => absurd hxv (by simp [hnovis x hx])⟩

theorem window_tier_selection_witness :
    find_dentweb_window_select
        [⟨"▶ 덴트웹 :: Chart No. 1 이름", true, true, false, true, 10000⟩,
         ⟨"덴트웹 :: main", false, true, true, true, 900000⟩] =
      some ⟨"▶ 덴트웹 :: Chart No. 1 이름", true, true, false, true, 10000⟩ ∧
    (⟨"▶ 덴트웹 :: Chart No. 1 이름", true, true, false, true, 10000⟩ :
        WindowInfo).is_super_strong = true ∧
    (⟨"덴트웹 :: main", false, true, true, true, 900000⟩ :
        WindowInfo).is_foreground = true := by
  have h := window_tier_selection
    [⟨"▶ 덴트웹 :: Chart No. 1 이름", true, true, false, true, 10000⟩,
     ⟨"덴트웹 :: main", false, true, true, true, 900000⟩]
    ⟨"▶ 덴트웹 :: Chart No. 1 이름", true, true, false, true, 10000⟩
    (by decide)
  exact ⟨by decide, (h.1 (by decide)).2.1, rfl⟩

/-- C4 counterexample: with only GENERAL-tier candidates the code ignores
the foreground state and picks the larger window, so a foreground candidate
loses to a larger background one — against the claimed
foreground-first rule for the highest tier present. -/
theorem window_general_tier_ignores_foreground :
    isGeneralTitle "Dentweb small" = true ∧
    isGeneralTitle "Dentweb big" = true ∧
    find_dentweb_window_select
        [⟨"Dentweb small", false, false, true, true, 40000⟩,
         ⟨"Dentweb big", false, false, false, true, 1000000⟩] =
      some ⟨"Dentweb big", false, false, false, true, 1000000⟩ ∧
    (⟨"Dentweb big", false, false, false, true, 1000000⟩ :
        WindowInfo).is_foreground = false ∧
    (⟨"Dentweb small", false, false, true, true, 40000⟩ :
        WindowInfo).is_foreground = true := by
  refine ⟨by decide, by decide, by decide, rfl, rfl⟩

/-! ## Pipeline stage runner -/

theorem updateFirst_spec {α : Type} (p : α → Bool) (f : α → α) :
    ∀ (l : List α) (i : Nat) (x : α), l[i]? = some x → p x = true →
      (∀ j y, j < i → l[j]? = some y → p y = false) →
      (updateFirst p f l)[i]? = some (f x) ∧
      ∀ j, j ≠ i → (updateFirst p f l)[j]? = l[j]? := by
  intro l
  induction l with
  | nil => intro i x hi; simp at hi
  | cons z zs ih =>
      intro i x hi hx hpre
      cases i with
      | zero =>
          simp only [List.getElem?_cons_zero, Option.some.injEq] at hi
          subst hi
          refine ⟨by simp [updateFirst, hx], ?_⟩
          intro j hj
          cases j with
          | zero => exact absurd rfl hj
          | succ k => simp [updateFirst, hx]
      | succ n =>
          have hz : p z = false := hpre 0 z (Nat.succ_pos n) (by simp)
          simp only [List.getElem?_cons_succ] at hi
          have hrec := ih n x hi hx
            (fun j y hj hjy => hpre (j + 1) y (Nat.succ_lt_succ hj)
              (by simpa using hjy))
          refine ⟨by simp [updateFirst, hz, hrec.1], ?_⟩
          intro j hj
          cases j with
          | zero => simp [updateFirst, hz]
          | succ k =>
              have hk : k ≠ n := fun h => hj (by rw [h])
              simp [updateFirst, hz, hrec.2 k hk]

theorem findIdx?_eq_some_of {α : Type} (p : α → Bool) :
    ∀ (l : List α) (i : Nat) (x : α), l[i]? = some x → p x = true →
      (∀ j y, j < i → l[j]? = some y → p y = false) →
      l.findIdx? p = some i := by
  intro l
  induction l with
  | nil => intro i x hi; simp at hi
  | cons z zs ih =>
      intro i x hi hx hpre
      cases i with
      | zero =>
          simp only [List.getElem?_cons_zero, Option.some.injEq] at hi
          subst hi
          simp [List.findIdx?_cons, hx]
      | succ n =>
          have hz : p z = false := hpre 0 z (Nat.succ_pos n) (by simp)
          simp only [List.getElem?_cons_succ] at hi
          have := ih n x hi hx
            (fun j y hj hjy => hpre (j + 1) y (Nat.succ_lt_succ hj)
              (by simpa using hjy))
          simp [List.findIdx?_cons, hz, this]

/-- C5: without the explicit re-run override (the stage button does not
carry a re-run caption), a request to execute the stage at index i while
some earlier stage is not completed is rejected: the statuses of all stages
are left unchanged, so the stage never transitions to running. -/
theorem pipeline_rejects_out_of_order (steps : List AutoStep)
    (buttons : List StepButton) (settingsOk : Bool) (stepId : String)
    (i : Nat)
    (hbtn : buttonTextFor buttons stepId ≠ "재실행" ∧
      buttonTextFor buttons stepId ≠ "재시도")
    (hidx : steps.findIdx? (fun s => s.id = stepId) = some i)
    (hearlier : (steps.take i).any
      (fun s => s.status ≠ StepStatus.completed) = true) :
    execute_step steps buttons settingsOk stepId = steps := by
  have hrerun : (buttonTextFor buttons stepId = "재실행"
      || buttonTextFor buttons stepId = "재시도") = false := by
    simp [hbtn.1, hbtn.2]
  cases settingsOk with
  | false => simp [execute_step, hrerun]
  | true =>
      simp only [execute_step, hrerun, Bool.false_eq_true, if_false,
        Bool.not_false, Bool.true_and, hidx, hearlier, Bool.not_true]
      simp

theorem pipeline_rejects_out_of_order_witness :
    ([⟨"ocr_extraction", "t1", .pending⟩,
      ⟨"webceph_analysis", "t2", .pending⟩,
      ⟨"pdf_download", "t3", .pending⟩] : List AutoStep).findIdx?
        (fun s => s.id = "webceph_analysis") = some 1 ∧
    execute_step
        [⟨"ocr_extraction", "t1", .pending⟩,
         ⟨"webceph_analysis", "t2", .pending⟩,
         ⟨"pdf_download", "t3", .pending⟩]
        [⟨"ocr_extraction", "실행"⟩, ⟨"webceph_analysis", "실행"⟩,
         ⟨"pdf_download", "실행"⟩] true "webceph_analysis" =
      [⟨"ocr_extraction", "t1", .pending⟩,
       ⟨"webceph_analysis", "t2", .pending⟩,
       ⟨"pdf_download", "t3", .pending⟩] :=
  ⟨by decide,
   pipeline_rejects_out_of_order
      [⟨"ocr_extraction", "t1", .pending⟩,
       ⟨"webceph_analysis", "t2", .pending⟩,
       ⟨"pdf_download", "t3", .pending⟩]
      [⟨"ocr_extraction", "실행"⟩, ⟨"webceph_analysis", "실행"⟩,
       ⟨"pdf_download", "실행"⟩] true "webceph_analysis" 1
      ⟨by decide, by decide⟩ (by decide) (by decide)⟩

/-- C8: re-running a stage whose button carries the completed or failed
re-run caption first resets exactly that stage to pending and then marks
exactly that stage running; every other stage's entry is untouched by both
phases. -/
theorem pipeline_rerun_frame (steps : List AutoStep)
    (buttons : List StepButton) (stepId : String) (i : Nat) (step : AutoStep)
    (hbtn : buttonTextFor buttons stepId = "재실행" ∨
      buttonTextFor buttons stepId = "재시도")
    (hi : steps[i]? = some step) (hid : step.id = stepId)
    (hpre : ∀ j y, j < i → steps[j]? = some y → y.id ≠ stepId)
    (hhandled : stepId = "ocr_extraction" ∨ stepId = "webceph_analysis" ∨
      stepId = "pdf_download") :
    ((resetStepStatus steps stepId)[i]? =
        some { step with status := .pending } ∧
      ∀ j, j ≠ i → (resetStepStatus steps stepId)[j]? = steps[j]?) ∧
    ((execute_step steps buttons true stepId)[i]? =
        some { step with status := .running } ∧
      ∀ j, j ≠ i → (execute_step steps buttons true stepId)[j]? =
        steps[j]?) := by
  have hpx : decide (step.id = stepId) = true := by
    simp [hid]
  have hpre' : ∀ j y, j < i → steps[j]? = some y →
      decide (y.id = stepId) = false := by
    intro j y hj hjy
    simp [hpre j y hj hjy]
  have hreset : (resetStepStatus steps stepId)[i]? =
      some { step with status := .pending } ∧
      ∀ j, j ≠ i → (resetStepStatus steps stepId)[j]? = steps[j]? :=
    updateFirst_spec (fun s : AutoStep => s.id = stepId)
      (fun s => { s with status := .pending }) steps i step hi hpx hpre'
  have hrerun : (buttonTextFor buttons stepId = "재실행"
      || buttonTextFor buttons stepId = "재시도") = true := by
    rcases hbtn with h | h <;> simp [h]
  have hpre1 : ∀ j y, j < i → (resetStepStatus steps stepId)[j]? = some y →
      decide (y.id = stepId) = false := by
    intro j y hj hjy
    rw [hreset.2 j (Nat.ne_of_lt hj)] at hjy
    exact hpre' j y hj hjy
  have hidx1 : (resetStepStatus steps stepId).findIdx?
      (fun s => s.id = stepId) = some i :=
    findIdx?_eq_some_of _ _ i { step with status := .pending } hreset.1
      (by simp [hid]) hpre1
  have hupd : (updateStepStatus (resetStepStatus steps stepId) stepId
        .running)[i]? = some { step with status := .running } ∧
      ∀ j, j ≠ i → (updateStepStatus (resetStepStatus steps stepId) stepId
        .running)[j]? = (resetStepStatus steps stepId)[j]? :=
    updateFirst_spec (fun s : AutoStep => s.id = stepId)
      (fun s => { s with status := .running }) (resetStepStatus steps stepId)
      i { step with status := .pending } hreset.1 (by simp [hid]) hpre1
  have hexec : execute_step steps buttons true stepId =
      updateStepStatus (resetStepStatus steps stepId) stepId .running := by
    have hrun : runStepHandler (resetStepStatus steps stepId) stepId true =
        updateStepStatus (resetStepStatus steps stepId) stepId .running := by
      rcases hhandled with h | h | h <;> subst h <;> simp [runStepHandler]
    simp [execute_step, hrerun, hidx1, hrun]
  refine ⟨⟨hreset.1, hreset.2⟩, ?_, ?_⟩
  · rw [hexec]
    exact hupd.1
  · intro j hj
    rw [hexec, hupd.2 j hj]
    exact hreset.2 j hj

theorem pipeline_rerun_frame_witness :
    ((resetStepStatus
        [⟨"ocr_extraction", "t1", .completed⟩,
         ⟨"webceph_analysis", "t2", .completed⟩,
         ⟨"pdf_download", "t3", .failed⟩] "webceph_analysis")[1]? =
      some ⟨"webceph_analysis", "t2", .pending⟩) ∧
    ((execute_step
        [⟨"ocr_extraction", "t1", .completed⟩,
         ⟨"webceph_analysis", "t2", .completed⟩,
         ⟨"pdf_download", "t3", .failed⟩]
        [⟨"ocr_extraction", "재실행"⟩, ⟨"webceph_analysis", "재실행"⟩,
         ⟨"pdf_download", "재시도"⟩] true "webceph_analysis")[1]? =
      some ⟨"webceph_analysis", "t2", .running⟩) ∧
    (∀ j, j ≠ 1 → (execute_step
        [⟨"ocr_extraction", "t1", .completed⟩,
         ⟨"webceph_analysis", "t2", .completed⟩,
         ⟨"pdf_download", "t3", .failed⟩]
        [⟨"ocr_extraction", "재실행"⟩, ⟨"webceph_analysis", "재실행"⟩,
         ⟨"pdf_download", "재시도"⟩] true "webceph_analysis")[j]? =
      ([⟨"ocr_extraction", "t1", .completed⟩,
        ⟨"webceph_analysis", "t2", .completed⟩,
        ⟨"pdf_download", "t3", .failed⟩] : List AutoStep)[j]?) := by
  have h := pipeline_rerun_frame
    [⟨"ocr_extraction", "t1", .completed⟩,
     ⟨"webceph_analysis", "t2", .completed⟩,
     ⟨"pdf_download", "t3", .failed⟩]
    [⟨"ocr_extraction", "재실행"⟩, ⟨"webceph_analysis", "재실행"⟩,
     ⟨"pdf_download", "재시도"⟩] "webceph_analysis" 1
    ⟨"webceph_analysis", "t2", .completed⟩
    (Or.inl (by decide)) (by decide) (by decide)
    (fun j y hj hjy => by
      have hj0 : j = 0 := Nat.lt_one_iff.mp hj
      subst hj0
      simp only [List.getElem?_cons_zero, Option.some.injEq] at hjy
      subst hjy
      decide)
    (Or.inr (Or.inl rfl))
  exact ⟨h.1.1, h.2.1, h.2.2⟩

/-! ## New-patient detection -/

theorem find?_eq_some_of {α : Type} (p : α → Bool) :
    ∀ (l : List α) (i : Nat) (x : α), l[i]? = some x → p x = true →
      (∀ j y, j < i → l[j]? = some y → p y = false) →
      l.find? p = some x := by
  intro l
  induction l with
  | nil => intro i x hi; simp at hi
  | cons z zs ih =>
      intro i x hi hx hpre
      cases i with
      | zero =>
          simp only [List.getElem?_cons_zero, Option.some.injEq] at hi
          subst hi
          simp [List.find?_cons, hx]
      | succ n =>
          have hz : p z = false := hpre 0 z (Nat.succ_pos n) (by simp)
          simp only [List.getElem?_cons_succ] at hi
          have := ih n x hi hx
            (fun j y hj hjy => hpre (j + 1) y (Nat.succ_lt_succ hj)
              (by simpa using hjy))
          simp [List.find?_cons, hz, this]

/-- C6 (amended): the driver selects the new patient by trying, in this
order: first the positional first-item-in-the-refreshed-list click; only
when it fails, keyword search over chart number, full name, first name and
last name in that order, stopping at the first keyword the search selects;
only when every search fails, pattern matching over the found list entries,
which clicks the first of the first five entries whose checked fields match
at least 50 percent, and otherwise falls back to clicking entry 0; with no
entries at all the detection fails. -/
theorem detect_method_order (page : DashboardPage) (pd : PatientQuery) :
    (page.firstInListOk = true →
      detect_and_select_new_patient page pd = .firstItem) ∧
    (page.firstInListOk = false →
      ∀ (i : Nat) (kw : String), (searchKeywords pd)[i]? = some kw →
        page.searchOk kw = true →
        (∀ (j : Nat) (t : String), j < i → (searchKeywords pd)[j]? = some t →
          page.searchOk t = false) →
        detect_and_select_new_patient page pd = .search kw) ∧
    (page.firstInListOk = false →
      (∀ kw ∈ searchKeywords pd, page.searchOk kw = false) →
      page.listElements ≠ [] →
      (∀ k, (page.listElements.take 5).findIdx? (entryMatches pd) = some k →
        detect_and_select_new_patient page pd = .matching k) ∧
      ((page.listElements.take 5).findIdx? (entryMatches pd) = none →
        detect_and_select_new_patient page pd = .matching 0)) ∧
    (page.firstInListOk = false →
      (∀ kw ∈ searchKeywords pd, page.searchOk kw = false) →
      page.listElements = [] →
      detect_and_select_new_patient page pd = .failed) := by
  refine ⟨?_, ?_, ?_, ?_⟩
  · intro h
    simp [detect_and_select_new_patient, h]
  · intro h i kw hkw hok hpre
    have hfind : (searchKeywords pd).find? page.searchOk = some kw :=
      find?_eq_some_of page.searchOk (searchKeywords pd) i kw hkw hok hpre
    simp [detect_and_select_new_patient, h, hfind]
  · intro h hall hne
    have hfind : (searchKeywords pd).find? page.searchOk = none :=
      List.find?_eq_none.mpr (fun kw hkw => by simp [hall kw hkw])
    cases helts : page.listElements with
    | nil => exact absurd helts hne
    | cons e es =>
        constructor
        · intro k hk
          simp only [detect_and_select_new_patient, h, Bool.false_eq_true,
            if_false, hfind, select_patient_by_matching, helts, hk]
        · intro hk
          simp only [detect_and_select_new_patient, h, Bool.false_eq_true,
            if_false, hfind, select_patient_by_matching, helts, hk]
  · intro h hall helts
    have hfind : (searchKeywords pd).find? page.searchOk = none :=
      List.find?_eq_none.mpr (fun kw hkw => by simp [hall kw hkw])
    simp [detect_and_select_new_patient, h, hfind, helts,
      select_patient_by_matching]

theorem detect_method_order_witness :
    (DashboardPage.firstInListOk
        ⟨false, fun kw => kw = "12345", []⟩ = false) ∧
    detect_and_select_new_patient
        ⟨false, fun kw => kw = "12345", []⟩
        ⟨"12345", "홍길동", "", ""⟩ = .search "12345" :=
  ⟨rfl,
   (detect_method_order ⟨false, fun kw => kw = "12345", []⟩
      ⟨"12345", "홍길동", "", ""⟩).2.1 rfl 0 "12345" rfl (by decide)
      (fun j t hj _ => absurd hj (Nat.not_lt_zero j))⟩

/-- C6 counterexample: the code tries the positional first-item heuristic
before any search — with a page where both the first-item click and the
exact-chart-number search would succeed, the code selects via the positional
heuristic, not the search; and the pattern matcher clicks entry 0 even when
no entry reaches the 50 percent threshold. -/
theorem detect_positional_first_counterexample :
    detect_and_select_new_patient
        ⟨true, fun _ => true, ["zzz"]⟩ ⟨"12345", "홍길동", "", ""⟩ =
      .firstItem ∧
    (fun _ : String => true) "12345" = true ∧
    SelectMethod.firstItem ≠ .search "12345" ∧
    entryMatches ⟨"12345", "홍길동", "", ""⟩ "zzz" = false ∧
    select_patient_by_matching ["zzz"] ⟨"12345", "홍길동", "", ""⟩ =
      some 0 := by
  refine ⟨rfl, rfl, by decide, by decide, by decide⟩

/-! ## OCR patient-info parsing -/

theorem dictSet_keys (d : List (String × String)) (k v : String)
    (h : k ∈ d.map Prod.fst) :
    (dictSet d k v).map Prod.fst = d.map Prod.fst := by
  unfold dictSet
  have hany : d.any (fun kv => kv.1 = k) = true := by
    rw [List.any_eq_true]
    obtain ⟨kv, hmem, hk⟩ := List.mem_map.mp h
    exact ⟨kv, hmem, by simp [hk]⟩
  rw [if_pos hany, List.map_map]
  apply List.map_congr_left
  intro kv _
  by_cases hk : kv.1 = k
  · simp [hk]
  · simp [hk]

theorem dictSet_keys_of (d : List (String × String)) (k v : String)
    (h : d.map Prod.fst = patientInfoKeys) (hk : k ∈ patientInfoKeys) :
    (dictSet d k v).map Prod.fst = patientInfoKeys := by
  rw [dictSet_keys d k v (by rw [h]; exact hk), h]

theorem parseStage1_keys (o : TextOps) (first_line : String)
    (d : List (String × String)) (h : d.map Prod.fst = patientInfoKeys) :
    (parseStage1TopName o first_line d).map Prod.fst = patientInfoKeys := by
  unfold parseStage1TopName
  cases topLineNamePatterns.findSome?
      (fun p => (o.search p first_line).filter (fun n => 2 ≤ n.length)) with
  | none => exact h
  | some fn =>
      exact dictSet_keys_of _ _ _
        (dictSet_keys_of _ _ _ h (by decide)) (by decide)

theorem parseStage2_keys (o : TextOps) (first_line : String)
    (d : List (String × String)) (h : d.map Prod.fst = patientInfoKeys) :
    (parseStage2TopBirth o first_line d).map Prod.fst = patientInfoKeys := by
  unfold parseStage2TopBirth
  cases topLineBirthPatterns.findSome? (fun p => o.search p first_line) with
  | none => exact h
  | some b => exact dictSet_keys_of _ _ _ h (by decide)

theorem parseStage3_keys (o : TextOps) (first_line : String)
    (lines : List String) (d : List (String × String))
    (h : d.map Prod.fst = patientInfoKeys) :
    (parseStage3Chart o first_line lines d).map Prod.fst =
      patientInfoKeys := by
  unfold parseStage3Chart
  have h1 : ∀ d1 : List (String × String), d1.map Prod.fst = patientInfoKeys →
      (if dictGet d1 "chart_no" = "" then
        match lines.findSome?
            (fun line => chartPatterns.findSome? (fun p => o.search p line)) with
        | some c => dictSet d1 "chart_no" c
        | none => d1
      else d1).map Prod.fst = patientInfoKeys := by
    intro d1 h1
    split
    · cases lines.findSome?
          (fun line => chartPatterns.findSome? (fun p => o.search p line)) with
      | none => exact h1
      | some c => exact dictSet_keys_of _ _ _ h1 (by decide)
    · exact h1
  cases chartPatterns.findSome? (fun p => o.search p first_line) with
  | none => exact h1 d h
  | some c => exact h1 _ (dictSet_keys_of _ _ _ h (by decide))

theorem parseStage4_keys (o : TextOps) (lines : List String)
    (d : List (String × String)) (h : d.map Prod.fst = patientInfoKeys) :
    (parseStage4Name o lines d).map Prod.fst = patientInfoKeys := by
  unfold parseStage4Name
  split
  · cases lines.findSome? (fun line =>
        namePatterns.findSome?
          (fun p => (o.search p line).filter (fun n => 2 ≤ n.length))) with
    | none => exact h
    | some fn =>
        exact dictSet_keys_of _ _ _
          (dictSet_keys_of _ _ _ h (by decide)) (by decide)
  · exact h

theorem parseStage5_keys (o : TextOps) (lines : List String)
    (d : List (String × String)) (h : d.map Prod.fst = patientInfoKeys) :
    (parseStage5Birth o lines d).map Prod.fst = patientInfoKeys := by
  unfold parseStage5Birth
  split
  · cases lines.findSome?
        (fun line => birthPatterns.findSome? (fun p => o.search p line)) with
    | none => exact h
    | some b => exact dictSet_keys_of _ _ _ h (by decide)
  · exact h

theorem parseStagePhone_keys (o : TextOps) (lines : List String)
    (d : List (String × String)) (h : d.map Prod.fst = patientInfoKeys) :
    (parseStagePhone o lines d).map Prod.fst = patientInfoKeys := by
  unfold parseStagePhone
  cases lines.findSome?
      (fun line => phonePatterns.findSome? (fun p => o.search p line)) with
  | none => exact h
  | some ph => exact dictSet_keys_of _ _ _ h (by decide)

theorem parseStageAddress_keys (o : TextOps) (lines : List String)
    (d : List (String × String)) (h : d.map Prod.fst = patientInfoKeys) :
    (parseStageAddress o lines d).map Prod.fst = patientInfoKeys := by
  show (if collectAddressLoop o lines [] false ≠ [] then
      dictSet d "address"
        (String.intercalate " " (collectAddressLoop o lines [] false))
    else d).map Prod.fst = patientInfoKeys
  split
  · exact dictSet_keys_of _ "address" _ h (by decide)
  · exact h

theorem parseStageGender_keys (o : TextOps) (lines : List String)
    (d : List (String × String)) (h : d.map Prod.fst = patientInfoKeys) :
    (parseStageGender o lines d).map Prod.fst = patientInfoKeys := by
  unfold parseStageGender
  exact dictSet_keys_of _ _ _ h (by decide)

/-- C10: for every regex oracle, capture date and input text — including
empty or garbage text — parse_patient_info returns (it is a total function
of the model, mirroring that the source catches any parsing exception and
returns the partially filled dictionary) a dictionary whose keys are exactly
chart_no, last_name, first_name, birth_date, phone, address, gender and
capture_date in the order of the initial literal; and when nothing matches,
every field except capture_date is left as the empty string. -/
theorem parse_patient_info_shape (o : TextOps) (today ocr_text : String) :
    (parse_patient_info o today ocr_text).map Prod.fst = patientInfoKeys ∧
    parse_patient_info noneTextOps today "no fields here\nsecond line" =
      patientInfoInit today := by
  constructor
  · unfold parse_patient_info
    exact parseStageGender_keys _ _ _
      (parseStageAddress_keys _ _ _
        (parseStagePhone_keys _ _ _
          (parseStage5_keys _ _ _
            (parseStage4_keys _ _ _
              (parseStage3_keys _ _ _ _
                (parseStage2_keys _ _ _
                  (parseStage1_keys _ _ _ rfl)))))))
  · rfl

end WebCephAuto
